import Mathlib

/-!
Shallow embedding of `src/gpu/utils.rs` from the `bellman` crate: GPU platform
resolution, device enumeration, the core-count table and its lookup, and the
diagnostic device dumper.

The OpenCL driver layer (the `ocl` crate) is modelled as an explicit `Driver`
value describing what every driver call would return; the process environment
(`std::env::var`) as an `Env` record of the three variables the module reads.
Rust `panic!`/`expect`/`unwrap` aborts are modelled with `Option`: a result of
`none` means the call panics.  Strings are Lean `String`s; the string
operations the source uses (`split`, `trim`, `parse::<usize>`) are given
structural implementations on `List Char` so that all definitions evaluate by
kernel reduction.
-/

namespace BellmanGpuUtils

/-- An error produced by the `ocl` driver layer (`ocl::Error`).  Its content is
irrelevant to the module; a string stands in for it. -/
abbrev OclError := String

/-- Modelled from the spec: the crate's `GPUError` type (`src/gpu/error.rs`,
not included in the sources).  `utils.rs` constructs `GPUError::Simple(msg)`
directly, and the `?` operator wraps a driver-level `ocl::Error` through a
`From` conversion; the spec requires driver-level failures to be surfaced as a
condition distinct from the `Simple` errors ("surfaced as a distinct condition
from not found"), so the wrapped driver error is a separate constructor. -/
inductive GPUError where
  | simple (msg : String)
  | ocl (e : OclError)

/-- `GPUResult<T>` from the crate: `Result<T, GPUError>`. -/
abbrev GPUResult (α : Type) := Except GPUError α

/-- An installed OpenCL platform (`ocl::Platform`), as far as this module
observes it: the result of its `name()` query and its `as_ptr()` identity. -/
structure Platform where
  name : Except OclError String
  ptr : Nat

/-- An OpenCL device (`ocl::Device`), as far as this module observes it: the
result of its `name()` query and of its `info(MaxComputeUnits)` query. -/
structure Device where
  name : Except OclError String
  maxComputeUnits : Except OclError Nat

/-- The driver layer: what `Platform::list()` returns, and what
`Device::list_all(p)` returns for each platform `p`. -/
structure Driver where
  platformList : Except OclError (List Platform)
  deviceListAll : Platform → Except OclError (List Device)

/-- The process environment: the three variables `utils.rs` reads.  `none`
means the variable is unset (`env::var` returns `Err`). -/
structure Env where
  bellman_no_gpu : Option String
  bellman_platform : Option String
  bellman_custom_gpu : Option String

/-- `GPU_NVIDIA_PLATFORM_NAME` (utils.rs line 8). -/
def GPU_NVIDIA_PLATFORM_NAME : String := "NVIDIA CUDA"

/-- `GPU_AMD_PLATFORM_NAME` (utils.rs line 9). -/
def GPU_AMD_PLATFORM_NAME : String := "AMD Accelerated Parallel Processing"

/-- The closure passed to `.find(...)` in `find_platform` (utils.rs lines
17-20): a platform matches when its name query succeeds and the name equals
the target exactly; a failed name query is a non-match. -/
def platformNameMatches (target : String) (p : Platform) : Bool :=
  match p.name with
  | .ok n => n == target
  | .error _ => false

/-- `find_platform` (utils.rs lines 12-26). -/
def find_platform (env : Env) (driver : Driver) (platform_name : String) :
    GPUResult Platform :=
  if env.bellman_no_gpu.isSome then
    .error (.simple "GPU accelerator is disabled!")
  else
    match driver.platformList with
    | .error e => .error (.ocl e)
    | .ok ps =>
      match ps.find? (platformNameMatches platform_name) with
      | some p => .ok p
      | none => .error (.simple "GPU platform not found!")

/-- `get_platform` (utils.rs lines 28-46). -/
def get_platform (env : Env) (driver : Driver) (platform_name : Option String) :
    GPUResult Platform :=
  match platform_name with
  | none =>
    let platform_environment :=
      match env.bellman_platform with
      | some p => p
      | none => GPU_NVIDIA_PLATFORM_NAME
    find_platform env driver platform_environment
  | some nm => find_platform env driver nm

/-- `get_devices` (utils.rs lines 48-53). -/
def get_devices (env : Env) (driver : Driver) (platform : Platform) :
    GPUResult (List Device) :=
  if env.bellman_no_gpu.isSome then
    .error (.simple "GPU accelerator is disabled!")
  else
    match driver.deviceListAll platform with
    | .error e => .error (.ocl e)
    | .ok ds => .ok ds

/-- Rust `str::split(sep)` for a one-character separator, on the character
list of the string: `"a,b"` gives `["a", "b"]`, `""` gives `[""]`,
`"a,"` gives `["a", ""]`. -/
def splitCharList (sep : Char) : List Char → List (List Char)
  | [] => [[]]
  | c :: rest =>
    let r := splitCharList sep rest
    if c = sep then [] :: r
    else
      match r with
      | [] => [[c]]
      | cur :: others => (c :: cur) :: others

/-- Rust `str::trim`: strip leading and trailing whitespace characters. -/
def trimCharList (cs : List Char) : List Char :=
  ((cs.dropWhile Char.isWhitespace).reverse.dropWhile Char.isWhitespace).reverse

/-- Rust `str::parse::<usize>()`: an optional leading `+`, then one or more
ASCII digits, and the value must fit in the 64-bit `usize` of the targets the
crate builds for; anything else is a parse error. -/
def parseUsize (cs : List Char) : Option Nat :=
  let ds := match cs with
    | '+' :: rest => rest
    | _ => cs
  if ds.isEmpty then none
  else if ds.all Char.isDigit then
    let n := ds.foldl (fun acc c => acc * 10 + (c.toNat - '0'.toNat)) 0
    if n < 2 ^ 64 then some n else none
  else none

/-- A `HashMap<String, usize>` observed only through `insert` and `get`: an
association list with at most one entry per key.  `hmInsert` is
`HashMap::insert` (overwrites an existing entry for the key). -/
def hmInsert (m : List (String × Nat)) (k : String) (v : Nat) :
    List (String × Nat) :=
  match m with
  | [] => [(k, v)]
  | (k', v') :: rest =>
    if k' = k then (k, v) :: rest else (k', v') :: hmInsert rest k v

/-- `HashMap::get`. -/
def hmGet (m : List (String × Nat)) (k : String) : Option Nat :=
  match m with
  | [] => none
  | (k', v) :: rest => if k' = k then some v else hmGet rest k

/-- The built-in `vec![...]` of (device name, core count) pairs used to seed
`CORE_COUNTS` (utils.rs lines 57-83), in source order. -/
def builtinCoreCountList : List (String × Nat) :=
  [("gfx1010", 2560),
   ("Quadro RTX 6000", 4608),
   ("TITAN RTX", 4608),
   ("Tesla V100", 5120),
   ("Tesla P100", 3584),
   ("Tesla T4", 2560),
   ("Quadro M5000", 2048),
   ("GeForce RTX 2080 Ti", 4352),
   ("GeForce RTX 2080 SUPER", 3072),
   ("GeForce RTX 2080", 2944),
   ("GeForce RTX 2070 SUPER", 2560),
   ("GeForce GTX 1080 Ti", 3584),
   ("GeForce GTX 1080", 2560),
   ("GeForce GTX 2060", 1920),
   ("GeForce GTX 1660 Ti", 1536),
   ("GeForce GTX 1060", 1280),
   ("GeForce GTX 1650 SUPER", 1280),
   ("GeForce GTX 1650", 896)]

/-- The table seeded from the built-in list
(`vec![...].into_iter().collect::<HashMap<_, _>>()`). -/
def builtinTable : List (String × Nat) :=
  builtinCoreCountList.foldl (fun m kv => hmInsert m kv.1 kv.2) []

/-- The `for card in var.split(",")` loop of the `CORE_COUNTS` initializer
(utils.rs lines 86-93), acting on the table built so far.  Each card is split
on `:`; a field count other than two panics (`none`), a core-count field that
does not parse as a `usize` panics, and otherwise the trimmed (name, cores)
pair is inserted. -/
def applyCards : List String → List (String × Nat) → Option (List (String × Nat))
  | [], m => some m
  | card :: rest, m =>
    match splitCharList ':' card.toList with
    | [nm, cs] =>
      match parseUsize (trimCharList cs) with
      | none => none
      | some cores => applyCards rest (hmInsert m (String.mk (trimCharList nm)) cores)
    | _ => none

/-- The value of the lazily-initialized `CORE_COUNTS` static (utils.rs lines
55-99) as a function of the environment; `none` when the initializer panics on
a malformed `BELLMAN_CUSTOM_GPU`.  When the variable is unset, the
`env::var(..).and_then(..)` closure never runs and the table is the built-in
one. -/
def CORE_COUNTS (env : Env) : Option (List (String × Nat)) :=
  match env.bellman_custom_gpu with
  | none => some builtinTable
  | some var =>
    applyCards ((splitCharList ',' var.toList).map String.mk) builtinTable

/-- `DEFAULT_CORE_COUNT` (utils.rs line 101). -/
def DEFAULT_CORE_COUNT : Nat := 2560

/-- `get_core_count` (utils.rs lines 102-117).  The device name query runs
first (`d.name()?`), so its failure propagates before the `CORE_COUNTS` static
is forced; the outer `Option` is `none` when forcing the static panics. -/
def get_core_count (env : Env) (d : Device) : Option (GPUResult Nat) :=
  match d.name with
  | .error e => some (.error (.ocl e))
  | .ok name =>
    match CORE_COUNTS env with
    | none => none
    | some table =>
      match hmGet table name with
      | some cores => some (.ok cores)
      | none => some (.ok DEFAULT_CORE_COUNT)

/-- `Result::unwrap_or_default()` on a driver list result. -/
def unwrapOrDefaultList {α : Type} : Except OclError (List α) → List α
  | .ok l => l
  | .error _ => []

/-- The inner device loop of `dump_device_list` (utils.rs lines 129-133):
each device's `info(MaxComputeUnits)` result is `unwrap()`ed, so a failed
capability query panics (`none`); the device name is only printed as a
`Result` and cannot fail the loop. -/
def dumpDevices : List Device → Option Unit
  | [] => some ()
  | d :: rest =>
    match d.maxComputeUnits with
    | .error _ => none
    | .ok _ => dumpDevices rest

/-- The outer platform loop of `dump_device_list`: device enumeration failure
is replaced by an empty list (`unwrap_or_default`), then the device loop
runs. -/
def dumpPlatforms (driver : Driver) : List Platform → Option Unit
  | [] => some ()
  | p :: rest =>
    match dumpDevices (unwrapOrDefaultList (driver.deviceListAll p)) with
    | none => none
    | some _ => dumpPlatforms driver rest

/-- `dump_device_list` (utils.rs lines 126-135): platform enumeration failure
is replaced by an empty list, and the loops run; `none` means the call
panics. -/
def dump_device_list (driver : Driver) : Option Unit :=
  dumpPlatforms driver (unwrapOrDefaultList driver.platformList)

/-! ### Specification-side definitions

These follow the spec's words, for comparison against the source-translated
definitions above. -/

/-- Specification-side reading of one override entry: split on `:`, require
exactly two fields, trim both, parse the core count; the resulting
(name, cores) pair, or `none` when the entry is malformed. -/
def specParsePair (card : String) : Option (String × Nat) :=
  match splitCharList ':' card.toList with
  | [nm, cs] =>
    match parseUsize (trimCharList cs) with
    | some cores => some (String.mk (trimCharList nm), cores)
    | none => none
  | _ => none

/-- Specification-side reading of the whole override list: all entries must be
well-formed, and the pairs are kept in list order. -/
def specParsePairs : List String → Option (List (String × Nat))
  | [] => some []
  | card :: rest =>
    match specParsePair card, specParsePairs rest with
    | some p, some ps => some (p :: ps)
    | _, _ => none

/-- Specification-side "last one wins" lookup among the user-supplied pairs:
the value of the last pair carrying the key, if any. -/
def specLastWins (pairs : List (String × Nat)) (k : String) : Option Nat :=
  (pairs.reverse.find? (fun kv => kv.1 == k)).map (fun kv => kv.2)

/-- A `BELLMAN_CUSTOM_GPU` entry on which the initializer loop panics: there
are no two `:`-separated fields whose core-count field parses as a `usize`. -/
def malformedCard (card : String) : Prop :=
  ∀ nm cs, splitCharList ':' card.toList = [nm, cs] →
    parseUsize (trimCharList cs) = none

/-- Whether a platform's name query succeeds. -/
def nameQueryOk (p : Platform) : Bool :=
  match p.name with
  | .ok _ => true
  | .error _ => false

/-! ### Concrete environments, platforms, devices and drivers

Closed instances used to evaluate the definitions at concrete inputs. -/

/-- No environment variable set. -/
def env0 : Env := ⟨none, none, none⟩

/-- Only `BELLMAN_PLATFORM` set. -/
def envPlat : Env := ⟨none, some "My Platform", none⟩

/-- Only `BELLMAN_NO_GPU` set. -/
def envDisabled : Env := ⟨some "1", none, none⟩

/-- A well-formed `BELLMAN_CUSTOM_GPU` value with two entries. -/
def envCustom : Env := ⟨none, none, some "Foo:100, Bar:200"⟩

/-- A `BELLMAN_CUSTOM_GPU` value that overrides a built-in entry twice. -/
def envOverride : Env := ⟨none, none, some "Tesla V100:1, Tesla V100:2"⟩

/-- A `BELLMAN_CUSTOM_GPU` entry with a non-numeric core count. -/
def envBadParse : Env := ⟨none, none, some "Foo:bar"⟩

/-- A `BELLMAN_CUSTOM_GPU` entry with no `:` separator. -/
def envBadShape : Env := ⟨none, none, some "Foo-100"⟩

/-- A device with a name from the built-in table. -/
def devV100 : Device := ⟨.ok "Tesla V100", .ok 80⟩

/-- A device whose name is absent from the built-in table. -/
def devUnknown : Device := ⟨.ok "Some Unknown GPU", .ok 1⟩

/-- A device whose name query fails. -/
def devNameErr : Device := ⟨.error "device name query failed", .ok 1⟩

/-- A device whose `MaxComputeUnits` capability query fails. -/
def devBadCap : Device := ⟨.ok "Broken Device", .error "clGetDeviceInfo failed"⟩

/-- An NVIDIA platform. -/
def platNV : Platform := ⟨.ok "NVIDIA CUDA", 1⟩

/-- A second platform carrying the NVIDIA name. -/
def platMatch : Platform := ⟨.ok "NVIDIA CUDA", 2⟩

/-- An AMD platform. -/
def platOther : Platform := ⟨.ok "AMD Accelerated Parallel Processing", 3⟩

/-- A platform whose name query fails. -/
def platErrName : Platform := ⟨.error "platform name query failed", 7⟩

/-- One NVIDIA platform with no devices. -/
def drv0 : Driver := ⟨.ok [platNV], fun _ => .ok []⟩

/-- One NVIDIA platform with one device. -/
def drvHW : Driver := ⟨.ok [platNV], fun _ => .ok [devV100]⟩

/-- Three platforms, the NVIDIA name appearing twice. -/
def drvMulti : Driver := ⟨.ok [platOther, platMatch, platNV], fun _ => .ok []⟩

/-- A platform with a failing name query listed before a matching one. -/
def drvMixed : Driver := ⟨.ok [platErrName, platMatch], fun _ => .ok []⟩

/-- Platform enumeration itself fails. -/
def drvEnumFail : Driver := ⟨.error "clGetPlatformIDs failed", fun _ => .error "unused"⟩

/-- One platform whose one device fails its capability query. -/
def drvBadCap : Driver := ⟨.ok [platNV], fun _ => .ok [devBadCap]⟩

/-! ### Helper lemmas -/

/-- `find?` over an append searches the left list first. -/
theorem find?_append_split {α : Type} (f : α → Bool) (l₁ l₂ : List α) :
    (l₁ ++ l₂).find? f =
      match l₁.find? f with
      | some x => some x
      | none => l₂.find? f := by
  induction l₁ with
  | nil => simp
  | cons a rest ih =>
    cases hf : f a with
    | true => simp [List.find?, hf]
    | false => simp [List.find?, hf, ih]

/-- Filtering by a predicate implied by the search predicate does not change
the result of `find?`. -/
theorem find?_filter_of_imp {α : Type} (f g : α → Bool) (l : List α)
    (himp : ∀ x, f x = true → g x = true) :
    (l.filter g).find? f = l.find? f := by
  induction l with
  | nil => rfl
  | cons a rest ih =>
    cases hf : f a with
    | true =>
      have hg := himp a hf
      simp [List.filter_cons, hg, List.find?, hf]
    | false =>
      cases hg : g a with
      | true => simp [List.filter_cons, hg, List.find?, hf, ih]
      | false => simp [List.filter_cons, hg, List.find?, hf, ih]

/-- Lookup after `hmInsert`: the inserted key maps to the new value, and every
other key is unaffected. -/
theorem hmGet_hmInsert (m : List (String × Nat)) (k k' : String) (v : Nat) :
    hmGet (hmInsert m k v) k' = if k = k' then some v else hmGet m k' := by
  induction m with
  | nil => simp [hmInsert, hmGet]
  | cons kv rest ih =>
    obtain ⟨a, b⟩ := kv
    by_cases hak : a = k
    · subst hak
      by_cases hk' : a = k' <;> simp [hmInsert, hmGet, hk']
    · by_cases hak' : a = k'
      · have hkk' : k ≠ k' := fun h => hak (hak'.trans h.symm)
        simp [hmInsert, hmGet, hak, hak', ih, hkk', Ne.symm hkk']
      · simp [hmInsert, hmGet, hak, hak', ih]

/-! ### Claims -/

/-- Claim C1: for every device whose name query succeeds, `get_core_count`
returns the stored count when the name is an exact key of the core-count
table, and the default count 2560 without failing when the name is absent;
when the name query itself fails, that error is propagated. -/
theorem get_core_count_lookup_spec (env : Env) (d : Device) :
    (∀ e, d.name = .error e → get_core_count env d = some (.error (.ocl e))) ∧
    (∀ nm table, d.name = .ok nm → CORE_COUNTS env = some table →
      (∀ c, hmGet table nm = some c → get_core_count env d = some (.ok c)) ∧
      (hmGet table nm = none →
        get_core_count env d = some (.ok DEFAULT_CORE_COUNT))) := by
  refine ⟨fun e he => ?_, fun nm table hn ht => ⟨fun c hc => ?_, fun hc => ?_⟩⟩
  · simp [get_core_count, he]
  · simp [get_core_count, hn, ht, hc]
  · simp [get_core_count, hn, ht, hc]

/-- Evaluation of claim C1 at concrete devices: a known name, an unknown
name, and a failing name query. -/
theorem get_core_count_lookup_spec_witness :
    get_core_count env0 devV100 = some (.ok 5120) ∧
    get_core_count env0 devUnknown = some (.ok DEFAULT_CORE_COUNT) ∧
    get_core_count env0 devNameErr =
      some (.error (.ocl "device name query failed")) :=
  ⟨((get_core_count_lookup_spec env0 devV100).2 "Tesla V100" builtinTable
      rfl rfl).1 5120 (by decide),
   ((get_core_count_lookup_spec env0 devUnknown).2 "Some Unknown GPU"
      builtinTable rfl rfl).2 (by decide),
   (get_core_count_lookup_spec env0 devNameErr).1 "device name query failed" rfl⟩

/-- Claim C2: `get_platform` resolves the platform name with the precedence
explicit argument, then `BELLMAN_PLATFORM`, then the built-in default
`"NVIDIA CUDA"`. -/
theorem get_platform_precedence (env : Env) (driver : Driver) :
    (∀ nm, get_platform env driver (some nm) = find_platform env driver nm) ∧
    (∀ p, env.bellman_platform = some p →
      get_platform env driver none = find_platform env driver p) ∧
    (env.bellman_platform = none →
      get_platform env driver none =
        find_platform env driver GPU_NVIDIA_PLATFORM_NAME) := by
  refine ⟨fun nm => rfl, fun p hp => ?_, fun hp => ?_⟩
  · simp [get_platform, hp]
  · simp [get_platform, hp]

/-- Evaluation of claim C2 at a concrete driver, for the three precedence
levels. -/
theorem get_platform_precedence_witness :
    get_platform env0 drv0 (some "AMD Accelerated Parallel Processing") =
      find_platform env0 drv0 "AMD Accelerated Parallel Processing" ∧
    get_platform envPlat drv0 none = find_platform envPlat drv0 "My Platform" ∧
    get_platform env0 drv0 none =
      find_platform env0 drv0 GPU_NVIDIA_PLATFORM_NAME :=
  ⟨(get_platform_precedence env0 drv0).1 _,
   (get_platform_precedence envPlat drv0).2.1 "My Platform" rfl,
   (get_platform_precedence env0 drv0).2.2 rfl⟩

/-- Claim C3: whenever `BELLMAN_NO_GPU` is set, `get_platform none`,
`get_platform (some nm)` for every name, and `get_devices` for every platform
all fail with the Disabled error, whatever the driver reports; `get_devices`
performs the check itself. -/
theorem disabled_toggle_fails_all (env : Env) (driver : Driver)
    (h : env.bellman_no_gpu.isSome = true) :
    get_platform env driver none =
      .error (.simple "GPU accelerator is disabled!") ∧
    (∀ nm, get_platform env driver (some nm) =
      .error (.simple "GPU accelerator is disabled!")) ∧
    (∀ platform, get_devices env driver platform =
      .error (.simple "GPU accelerator is disabled!")) := by
  refine ⟨?_, fun nm => ?_, fun platform => ?_⟩ <;>
    simp [get_platform, get_devices, find_platform, h]

/-- Evaluation of claim C3 with the toggle set and hardware installed. -/
theorem disabled_toggle_fails_all_witness :
    get_platform envDisabled drvHW none =
      .error (.simple "GPU accelerator is disabled!") ∧
    get_platform envDisabled drvHW (some "NVIDIA CUDA") =
      .error (.simple "GPU accelerator is disabled!") ∧
    get_devices envDisabled drvHW platNV =
      .error (.simple "GPU accelerator is disabled!") :=
  ⟨(disabled_toggle_fails_all envDisabled drvHW rfl).1,
   (disabled_toggle_fails_all envDisabled drvHW rfl).2.1 "NVIDIA CUDA",
   (disabled_toggle_fails_all envDisabled drvHW rfl).2.2 platNV⟩

/-- Claim C8: with the toggle unset, `get_devices` returns the
driver-reported device list unchanged, and an empty device list is a
successful result. -/
theorem get_devices_passthrough (env : Env) (driver : Driver)
    (platform : Platform) (hgpu : env.bellman_no_gpu = none) :
    (∀ ds, driver.deviceListAll platform = .ok ds →
      get_devices env driver platform = .ok ds) ∧
    (driver.deviceListAll platform = .ok [] →
      get_devices env driver platform = .ok []) := by
  refine ⟨fun ds hds => ?_, fun hds => ?_⟩ <;> simp [get_devices, hgpu, hds]

/-- Evaluation of claim C8: a one-device platform and a zero-device
platform. -/
theorem get_devices_passthrough_witness :
    get_devices env0 drvHW platNV = .ok [devV100] ∧
    get_devices env0 drv0 platNV = .ok [] :=
  ⟨(get_devices_passthrough env0 drvHW platNV rfl).1 [devV100] rfl,
   (get_devices_passthrough env0 drv0 platNV rfl).2 rfl⟩

/-- The initializer loop panics whenever some card of the list is
malformed. -/
theorem applyCards_eq_none_of_malformed (cards : List String)
    (m : List (String × Nat)) (card : String) (hmem : card ∈ cards)
    (hbad : malformedCard card) :
    applyCards cards m = none := by
  induction cards generalizing m with
  | nil => cases hmem
  | cons c rest ih =>
    rw [applyCards]
    cases hsplit : splitCharList ':' c.toList with
    | nil => rfl
    | cons a tail =>
      cases tail with
      | nil => rfl
      | cons b tail2 =>
        cases tail2 with
        | nil =>
          cases hp : parseUsize (trimCharList b) with
          | none => simp only [hp]
          | some cores =>
            rcases List.mem_cons.mp hmem with hc | hc
            · subst hc
              rw [hbad a b hsplit] at hp
              cases hp
            · simp only [hp]
              exact ih _ hc
        | cons d tail3 => rfl

/-- Claim C4: every `BELLMAN_CUSTOM_GPU` entry whose split on `:` does not
yield exactly two fields, or whose core-count field does not parse as a
non-negative integer, makes the core-count table construction panic. -/
theorem custom_gpu_malformed_panics (env : Env) (var card : String)
    (hvar : env.bellman_custom_gpu = some var)
    (hmem : card ∈ (splitCharList ',' var.toList).map String.mk)
    (hbad : malformedCard card) :
    CORE_COUNTS env = none := by
  simp only [CORE_COUNTS, hvar]
  exact applyCards_eq_none_of_malformed _ _ _ hmem hbad

/-- Evaluation of claim C4: `"Foo:bar"` (non-numeric count) and `"Foo-100"`
(missing separator) both abort table construction. -/
theorem custom_gpu_malformed_panics_witness :
    CORE_COUNTS envBadParse = none ∧ CORE_COUNTS envBadShape = none := by
  constructor
  · refine custom_gpu_malformed_panics envBadParse "Foo:bar" "Foo:bar" rfl
      (by decide) ?_
    intro nm cs h
    rw [show splitCharList ':' "Foo:bar".toList =
        [['F', 'o', 'o'], ['b', 'a', 'r']] from by decide] at h
    obtain ⟨h1, h2⟩ := List.cons.inj h
    obtain ⟨h3, -⟩ := List.cons.inj h2
    subst h3
    decide
  · refine custom_gpu_malformed_panics envBadShape "Foo-100" "Foo-100" rfl
      (by decide) ?_
    intro nm cs h
    rw [show splitCharList ':' "Foo-100".toList =
        [['F', 'o', 'o', '-', '1', '0', '0']] from by decide] at h
    simp at h

/-- `applyCards` agrees with the specification-side reading of the override
list: it succeeds exactly when every entry parses, and then folds the trimmed
pairs into the table in list order. -/
theorem applyCards_eq_specParsePairs (cards : List String)
    (m : List (String × Nat)) :
    applyCards cards m =
      (specParsePairs cards).map
        (fun pairs => pairs.foldl (fun t kv => hmInsert t kv.1 kv.2) m) := by
  induction cards generalizing m with
  | nil => rfl
  | cons card rest ih =>
    rw [applyCards, specParsePairs, specParsePair]
    cases hsplit : splitCharList ':' card.toList with
    | nil => rfl
    | cons a tail =>
      cases tail with
      | nil => rfl
      | cons b tail2 =>
        cases tail2 with
        | nil =>
          cases hp : parseUsize (trimCharList b) with
          | none => simp [hp]
          | some cores =>
            simp only [hp]
            rw [ih]
            cases hr : specParsePairs rest with
            | none => rfl
            | some ps => simp [List.foldl_cons]
        | cons d tail3 => rfl

/-- Lookup in a table built by folding inserts over a pair list: the last
pair carrying the key wins, and absent keys fall back to the initial table. -/
theorem hmGet_foldl_insert (pairs : List (String × Nat))
    (t0 : List (String × Nat)) (k : String) :
    hmGet (pairs.foldl (fun t kv => hmInsert t kv.1 kv.2) t0) k =
      match specLastWins pairs k with
      | some v => some v
      | none => hmGet t0 k := by
  induction pairs generalizing t0 with
  | nil => simp [specLastWins]
  | cons kv rest ih =>
    rw [List.foldl_cons, ih]
    have hrev : specLastWins (kv :: rest) k =
        match specLastWins rest k with
        | some v => some v
        | none => if kv.1 = k then some kv.2 else none := by
      simp only [specLastWins, List.reverse_cons, find?_append_split]
      cases hr : rest.reverse.find? (fun kv => kv.1 == k) with
      | none =>
        by_cases hk : kv.1 = k
        · simp [List.find?, hk]
        · have hbeq : (kv.1 == k) = false := by simp [hk]
          simp [List.find?, hbeq, hk]
      | some x => simp
    rw [hrev, hmGet_hmInsert]
    cases hlw : specLastWins rest k with
    | none => by_cases hk : kv.1 = k <;> simp [hk]
    | some v => simp

/-- Claim C5: the core-count table parses `BELLMAN_CUSTOM_GPU` as a
comma-separated list of `name:cores` entries with both fields trimmed, and
inserts the pairs in list order, so a user entry overrides a built-in entry
with the same key and the last duplicate user key wins; every lookup is the
last user pair for the key, falling back to the built-in table. -/
theorem custom_gpu_override_lookup (env : Env) (var : String)
    (pairs : List (String × Nat))
    (hvar : env.bellman_custom_gpu = some var)
    (hpairs : specParsePairs ((splitCharList ',' var.toList).map String.mk) =
      some pairs) :
    ∀ k, (CORE_COUNTS env).map (fun t => hmGet t k) =
      some (match specLastWins pairs k with
            | some v => some v
            | none => hmGet builtinTable k) := by
  intro k
  have h0 : CORE_COUNTS env =
      applyCards ((splitCharList ',' var.toList).map String.mk) builtinTable := by
    rw [CORE_COUNTS, hvar]
  rw [h0, applyCards_eq_specParsePairs, hpairs]
  simp only [Option.map_some']
  rw [hmGet_foldl_insert]

/-- Evaluation of claim C5: `"Foo:100, Bar:200"` yields `Foo→100` and
`Bar→200` (the second field trimmed), and `"Tesla V100:1, Tesla V100:2"`
overrides the built-in `Tesla V100` entry with the last duplicate, 2. -/
theorem custom_gpu_override_lookup_witness :
    (CORE_COUNTS envCustom).map (fun t => hmGet t "Foo") = some (some 100) ∧
    (CORE_COUNTS envCustom).map (fun t => hmGet t "Bar") = some (some 200) ∧
    (CORE_COUNTS envOverride).map (fun t => hmGet t "Tesla V100") =
      some (some 2) := by
  have h1 := custom_gpu_override_lookup envCustom "Foo:100, Bar:200"
    [("Foo", 100), ("Bar", 200)] rfl (by decide)
  have h2 := custom_gpu_override_lookup envOverride "Tesla V100:1, Tesla V100:2"
    [("Tesla V100", 1), ("Tesla V100", 2)] rfl (by decide)
  exact ⟨(h1 "Foo").trans (by decide), (h1 "Bar").trans (by decide),
    (h2 "Tesla V100").trans (by decide)⟩

/-- Claim C7: platform name resolution enumerates all installed platforms and
compares each name for exact string equality against the target, returning
the first match; no installed match fails with the "GPU platform not found!"
error, which is distinct from the propagated driver error when platform
enumeration itself fails. -/
theorem find_platform_resolution (env : Env) (driver : Driver) (nm : String)
    (hgpu : env.bellman_no_gpu = none) :
    (∀ e, driver.platformList = .error e →
      find_platform env driver nm = .error (.ocl e) ∧
      GPUError.ocl e ≠ GPUError.simple "GPU platform not found!") ∧
    (∀ ps, driver.platformList = .ok ps →
      ((∀ p ∈ ps, platformNameMatches nm p = false) →
        find_platform env driver nm =
          .error (.simple "GPU platform not found!")) ∧
      (∀ l₁ p l₂, ps = l₁ ++ p :: l₂ →
        platformNameMatches nm p = true →
        (∀ q ∈ l₁, platformNameMatches nm q = false) →
        find_platform env driver nm = .ok p)) := by
  constructor
  · intro e he
    refine ⟨?_, fun h => by cases h⟩
    simp [find_platform, hgpu, he]
  · intro ps hps
    constructor
    · intro hnone
      have hfind : ps.find? (platformNameMatches nm) = none :=
        List.find?_eq_none.mpr (fun x hx => by simp [hnone x hx])
      simp [find_platform, hgpu, hps, hfind]
    · intro l₁ p l₂ hsp hp hl₁
      have hfind : ps.find? (platformNameMatches nm) = some p := by
        subst hsp
        rw [find?_append_split]
        have hnone : l₁.find? (platformNameMatches nm) = none :=
          List.find?_eq_none.mpr (fun x hx => by simp [hl₁ x hx])
        rw [hnone]
        simp [List.find?, hp]
      simp [find_platform, hgpu, hps, hfind]

/-- Evaluation of claim C7: a failing enumeration, a name with no installed
match, and a first match among several platforms. -/
theorem find_platform_resolution_witness :
    find_platform env0 drvEnumFail "NVIDIA CUDA" =
      .error (.ocl "clGetPlatformIDs failed") ∧
    find_platform env0 drv0 "Missing Platform" =
      .error (.simple "GPU platform not found!") ∧
    find_platform env0 drvMulti "NVIDIA CUDA" = .ok platMatch :=
  ⟨((find_platform_resolution env0 drvEnumFail "NVIDIA CUDA" rfl).1
      "clGetPlatformIDs failed" rfl).1,
   ((find_platform_resolution env0 drv0 "Missing Platform" rfl).2 [platNV]
      rfl).1 (by decide),
   ((find_platform_resolution env0 drvMulti "NVIDIA CUDA" rfl).2
      [platOther, platMatch, platNV] rfl).2 [platOther] platMatch [platNV]
      rfl (by decide) (by decide)⟩

/-- Claim C10: a platform whose own name query fails is treated as a
non-match and silently skipped: `get_platform` behaves exactly as if only the
platforms with successful name queries were installed, failing with
"platform not found" only when none of those matches. -/
theorem get_platform_skips_name_errors (env : Env) (driver : Driver)
    (nm : String) (ps : List Platform)
    (hgpu : env.bellman_no_gpu = none)
    (hps : driver.platformList = .ok ps) :
    get_platform env driver (some nm) =
      match (ps.filter nameQueryOk).find? (platformNameMatches nm) with
      | some p => .ok p
      | none => .error (.simple "GPU platform not found!") := by
  have himp : ∀ p, platformNameMatches nm p = true → nameQueryOk p = true := by
    intro p h
    unfold platformNameMatches at h
    unfold nameQueryOk
    cases hq : p.name with
    | ok s => rfl
    | error e =>
      rw [hq] at h
      cases h
  rw [find?_filter_of_imp _ _ _ himp]
  cases hf : ps.find? (platformNameMatches nm) with
  | some p => simp [get_platform, find_platform, hgpu, hps, hf]
  | none => simp [get_platform, find_platform, hgpu, hps, hf]

/-- Evaluation of claim C10: with a failing-name platform listed before a
matching one, resolution skips the former and returns the latter. -/
theorem get_platform_skips_name_errors_witness :
    get_platform env0 drvMixed (some "NVIDIA CUDA") = .ok platMatch :=
  (get_platform_skips_name_errors env0 drvMixed "NVIDIA CUDA"
    [platErrName, platMatch] rfl rfl).trans rfl

/-- Claim C6 counterexample: with one platform whose one device fails its
`MaxComputeUnits` capability query, `dump_device_list` panics (the source
`unwrap()`s the query result on line 131), so the call is not fatal-free for
every outcome of the per-device capability queries. -/
theorem dump_device_list_panics_cex : dump_device_list drvBadCap = none := rfl

/-- The device loop of the dumper completes exactly when every device's
capability query succeeds. -/
theorem dumpDevices_eq_some_iff (ds : List Device) :
    dumpDevices ds = some () ↔ ∀ d ∈ ds, ∃ n, d.maxComputeUnits = .ok n := by
  induction ds with
  | nil => simp [dumpDevices]
  | cons d rest ih =>
    cases hc : d.maxComputeUnits with
    | error e =>
      simp only [dumpDevices, hc]
      constructor
      · intro h
        cases h
      · intro h
        obtain ⟨n, hn⟩ := h d (List.mem_cons_self d rest)
        rw [hc] at hn
        cases hn
    | ok n =>
      simp only [dumpDevices, hc]
      rw [ih]
      constructor
      · intro h d' hd'
        rcases List.mem_cons.mp hd' with h1 | h1
        · subst h1
          exact ⟨n, hc⟩
        · exact h d' h1
      · intro h d' hd'
        exact h d' (List.mem_cons_of_mem _ hd')

/-- The platform loop of the dumper completes exactly when every enumerated
device of every listed platform has a successful capability query. -/
theorem dumpPlatforms_eq_some_iff (driver : Driver) (ps : List Platform) :
    dumpPlatforms driver ps = some () ↔
      ∀ p ∈ ps, ∀ d ∈ unwrapOrDefaultList (driver.deviceListAll p),
        ∃ n, d.maxComputeUnits = .ok n := by
  induction ps with
  | nil => simp [dumpPlatforms]
  | cons p rest ih =>
    cases hd : dumpDevices (unwrapOrDefaultList (driver.deviceListAll p)) with
    | none =>
      simp only [dumpPlatforms, hd]
      constructor
      · intro h
        cases h
      · intro h
        have hsome := (dumpDevices_eq_some_iff _).mpr
          (h p (List.mem_cons_self p rest))
        rw [hd] at hsome
        cases hsome
    | some u =>
      cases u
      simp only [dumpPlatforms, hd]
      rw [ih]
      constructor
      · intro h p' hp'
        rcases List.mem_cons.mp hp' with h1 | h1
        · subst h1
          exact (dumpDevices_eq_some_iff _).mp hd
        · exact h p' h1
      · intro h p' hp'
        exact h p' (List.mem_cons_of_mem _ hp')

/-- Claim C6 (amended): `dump_device_list` substitutes empty lists when
platform or device enumeration fails and ignores name-query failures, but it
is fatal when a per-device `MaxComputeUnits` capability query fails: the call
completes exactly when every capability query on every enumerated device
succeeds. -/
theorem dump_device_list_completes_iff (driver : Driver) :
    dump_device_list driver = some () ↔
      ∀ p ∈ unwrapOrDefaultList driver.platformList,
        ∀ d ∈ unwrapOrDefaultList (driver.deviceListAll p),
          ∃ n, d.maxComputeUnits = .ok n :=
  dumpPlatforms_eq_some_iff driver (unwrapOrDefaultList driver.platformList)

/-- Evaluation of claim C6 (amended): the dumper completes when platform
enumeration itself fails. -/
theorem dump_device_list_completes_iff_witness :
    dump_device_list drvEnumFail = some () :=
  (dump_device_list_completes_iff drvEnumFail).mpr (by
    intro p hp
    simp [drvEnumFail, unwrapOrDefaultList] at hp)

end BellmanGpuUtils
